import Mathlib

/-!
Verification of the backbeat API core: windowed metrics aggregation,
the failed-operation retry ledger (paginated listing, filtering, replay),
and the strict route matcher.  The production modules are modelled from
the specification; the test suite (the observable source) fixes the
concrete scenarios used as witnesses.
-/

set_option autoImplicit false

attribute [local semireducible] Rat.mul Rat.inv Rat.add Rat.sub Rat.ofScientific

namespace Backbeat

/-! Metric streams and the stats model -/

/-- Modelled from the spec: the six metric stream types of StatsModel
(`metricType ∈ {ops, bytes, opsdone, bytesdone, opsfail, bytesfail}`). -/
inductive MetricType where
  | ops
  | bytes
  | opsdone
  | bytesdone
  | opsfail
  | bytesfail
deriving DecidableEq, Repr

/-- A replication destination site identifier. -/
abbrev Site := String

/-- Modelled from the spec: the readable face of StatsModel, missing from the
sources.  `getStats`, the trailing-window sum of one `(site, metricType)`
stream, is abstracted as a function from site and stream to its current
non-expired total. -/
def Stats : Type := Site → MetricType → Nat

/-- The stats reading in which no stream has any recorded data. -/
def zeroStats : Stats := fun _ _ => 0

/-! MetricsAggregator -/

/-- A metric result record: the `results` object `{count, size}`. -/
structure MetricResults where
  count : Rat
  size : Rat
deriving DecidableEq, Repr

/-- Modelled from the spec: `round2` rounds to two decimal places, half-up. -/
def round2 (q : Rat) : Rat := ((q * 100 + 1 / 2).floor : Int) / 100

/-- Modelled from the spec: the four derived metric kinds. -/
inductive MetricKind where
  | backlog
  | completions
  | failures
  | throughput
deriving DecidableEq, Repr

/-- The response key naming a metric kind. -/
def kindName : MetricKind → String
  | .backlog => "backlog"
  | .completions => "completions"
  | .failures => "failures"
  | .throughput => "throughput"

/-- All metric kinds, in the order a bare-site request reports them. -/
def allKinds : List MetricKind :=
  [.backlog, .completions, .failures, .throughput]

/-- Modelled from the spec: reading one stream for a requested site, where
`"all"` means the sum of every configured site's stream and is never itself
a stored stream. -/
def siteStat (sites : List Site) (stats : Stats) (site : Site)
    (t : MetricType) : Nat :=
  if site = "all" then (sites.map (fun s => stats s t)).sum else stats site t

/-- Modelled from the spec: MetricsAggregator's derivation of one metric kind
from the six stream readings, with configured `expiry` in seconds:
backlog = attempted minus completed, completions = completed, failures =
failed, throughput = completed per second rounded to two decimals. -/
def computeMetric (expiry : Nat) (read : MetricType → Nat) :
    MetricKind → MetricResults
  | .backlog =>
      ⟨((read .ops : Int) - read .opsdone : Int),
       ((read .bytes : Int) - read .bytesdone : Int)⟩
  | .completions => ⟨read .opsdone, read .bytesdone⟩
  | .failures => ⟨read .opsfail, read .bytesfail⟩
  | .throughput =>
      ⟨round2 ((read .opsdone : Rat) / expiry),
       round2 ((read .bytesdone : Rat) / expiry)⟩

/-- A recognized metrics site: the literal `"all"` or a configured site. -/
def knownSite (sites : List Site) (site : Site) : Bool :=
  site = "all" || sites.contains site

/-- An HTTP status line: code and status message. -/
structure HttpStatus where
  code : Nat
  message : String
deriving DecidableEq, Repr

/-- Decidable equality of handler outcomes, for evaluating concrete runs. -/
instance {ε α : Type} [DecidableEq ε] [DecidableEq α] :
    DecidableEq (Except ε α) := fun a b =>
  match a, b with
  | .ok x, .ok y =>
      if h : x = y then .isTrue (by rw [h]) else .isFalse (by simp [h])
  | .error e, .error f =>
      if h : e = f then .isTrue (by rw [h]) else .isFalse (by simp [h])
  | .ok _, .error _ => .isFalse (by simp)
  | .error _, .ok _ => .isFalse (by simp)

/-- The 404 response status of the server, with its literal message. -/
def notFoundStatus : HttpStatus := ⟨404, "Not Found"⟩

/-- Modelled from the spec: the metrics request handler, missing from the
sources.  A request names a site and optionally a single metric kind; an
unrecognized site yields 404, a recognized one yields the derived records
keyed by kind name (all four kinds when no single kind is named). -/
def handleMetrics (sites : List Site) (expiry : Nat) (stats : Stats)
    (site : Site) (kind : Option MetricKind) :
    Except HttpStatus (List (String × MetricResults)) :=
  if knownSite sites site then
    match kind with
    | some k =>
        .ok [(kindName k, computeMetric expiry (siteStat sites stats site) k)]
    | none =>
        .ok (allKinds.map fun k =>
          (kindName k, computeMetric expiry (siteStat sites stats site) k))
  else
    .error notFoundStatus

/-! Concrete metrics scenario of the test suite -/

/-- The two configured destination sites of the test configuration. -/
def testSites : List Site := ["site1", "site2"]

/-- The stream readings reported in the routes test: site1 gets
ops=1200, bytes=2198, opsdone=450, bytesdone=1027; site2 gets
ops=900, bytes=2943, opsdone=300, bytesdone=1874. -/
def testStats : Stats := fun s t =>
  if s = "site1" then
    match t with
    | .ops => 1200
    | .bytes => 2198
    | .opsdone => 450
    | .bytesdone => 1027
    | _ => 0
  else if s = "site2" then
    match t with
    | .ops => 900
    | .bytes => 2943
    | .opsdone => 300
    | .bytesdone => 1874
    | _ => 0
  else 0

/-! Aggregation lemmas -/

theorem round2_zero : round2 0 = 0 := by decide

theorem knownSite_of_mem {sites : List Site} {S : Site} (h : S ∈ sites) :
    knownSite sites S = true := by
  simp [knownSite]
  exact Or.inr h

theorem siteStat_of_ne_all {sites : List Site} {stats : Stats} {S : Site}
    (h : S ≠ "all") (t : MetricType) :
    siteStat sites stats S t = stats S t := by
  simp [siteStat, h]

theorem siteStat_all (sites : List Site) (stats : Stats) (t : MetricType) :
    siteStat sites stats "all" t = (sites.map (fun s => stats s t)).sum := by
  simp [siteStat]

theorem computeMetric_zero (expiry : Nat) (read : MetricType → Nat)
    (h : ∀ t, read t = 0) (k : MetricKind) :
    computeMetric expiry read k = ⟨0, 0⟩ := by
  cases k <;> simp [computeMetric, h, round2_zero]

/-- Claim C1: for every known site S, the aggregator satisfies
backlog = (ops - opsdone, bytes - bytesdone), completions =
(opsdone, bytesdone), failures = (opsfail, bytesfail), throughput =
(round2(opsdone/expiry), round2(bytesdone/expiry)); and the concrete test
scenario yields backlog(site1)={750,1171}, backlog(all)={1350,2240},
throughput(site1)={0.5,1.14}, throughput(all)={0.83,3.22}. -/
theorem claim_C1_metric_derivation :
    (∀ (sites : List Site) (expiry : Nat) (stats : Stats) (S : Site),
      S ∈ sites → S ≠ "all" →
      handleMetrics sites expiry stats S (some .backlog) =
        .ok [("backlog",
          ⟨((stats S .ops : Int) - (stats S .opsdone : Int) : Int),
           ((stats S .bytes : Int) - (stats S .bytesdone : Int) : Int)⟩)] ∧
      handleMetrics sites expiry stats S (some .completions) =
        .ok [("completions", ⟨stats S .opsdone, stats S .bytesdone⟩)] ∧
      handleMetrics sites expiry stats S (some .failures) =
        .ok [("failures", ⟨stats S .opsfail, stats S .bytesfail⟩)] ∧
      handleMetrics sites expiry stats S (some .throughput) =
        .ok [("throughput",
          ⟨round2 ((stats S .opsdone : Rat) / (expiry : Rat)),
           round2 ((stats S .bytesdone : Rat) / (expiry : Rat))⟩)]) ∧
    handleMetrics testSites 900 testStats "site1" (some .backlog) =
      .ok [("backlog", ⟨750, 1171⟩)] ∧
    handleMetrics testSites 900 testStats "all" (some .backlog) =
      .ok [("backlog", ⟨1350, 2240⟩)] ∧
    handleMetrics testSites 900 testStats "site1" (some .throughput) =
      .ok [("throughput", ⟨0.5, 1.14⟩)] ∧
    handleMetrics testSites 900 testStats "all" (some .throughput) =
      .ok [("throughput", ⟨0.83, 3.22⟩)] := by
  refine ⟨?_, by decide, by decide, by decide, by decide⟩
  intro sites expiry stats S hmem hne
  have hk : knownSite sites S = true := knownSite_of_mem hmem
  refine ⟨?_, ?_, ?_, ?_⟩ <;>
    simp [handleMetrics, hk, computeMetric, kindName, siteStat_of_ne_all hne]

/-- Witness for claim C1: the general identities applied at the configured
site1 of the concrete test scenario. -/
theorem claim_C1_metric_derivation_witness :
    ("site1" ∈ testSites ∧ "site1" ≠ "all") ∧
    handleMetrics testSites 900 testStats "site1" (some .completions) =
      .ok [("completions",
        ⟨testStats "site1" .opsdone, testStats "site1" .bytesdone⟩)] :=
  ⟨⟨by decide, by decide⟩,
   (claim_C1_metric_derivation.1 testSites 900 testStats "site1"
     (by decide) (by decide)).2.1⟩

/-- Claim C2: for every metric kind, the value for site "all" is the metric
computed over the per-stream sums across every configured site, and it
depends only on the configured sites' streams — a stream stored under the
key "all" itself is never read. -/
theorem claim_C2_all_sums_sites :
    ∀ (sites : List Site) (expiry : Nat) (stats : Stats) (k : MetricKind),
      handleMetrics sites expiry stats "all" (some k) =
        .ok [(kindName k,
          computeMetric expiry
            (fun t => (sites.map (fun s => stats s t)).sum) k)] ∧
      (∀ stats' : Stats, (∀ s ∈ sites, ∀ t, stats s t = stats' s t) →
        handleMetrics sites expiry stats "all" (some k) =
          handleMetrics sites expiry stats' "all" (some k)) := by
  intro sites expiry stats k
  have hsum : siteStat sites stats "all"
      = fun t => (sites.map (fun s => stats s t)).sum := by
    funext t
    exact siteStat_all sites stats t
  constructor
  · simp only [handleMetrics, knownSite]
    rw [hsum]
    simp
  · intro stats' hagree
    have hsum' : siteStat sites stats' "all"
        = fun t => (sites.map (fun s => stats' s t)).sum := by
      funext t
      exact siteStat_all sites stats' t
    have heq : (fun t => (sites.map (fun s => stats s t)).sum)
        = fun t => (sites.map (fun s => stats' s t)).sum := by
      funext t
      congr 1
      exact List.map_congr_left fun s hs => hagree s hs t
    simp only [handleMetrics, knownSite]
    rw [hsum, hsum', heq]

/-- Witness for claim C2: the independence half applied at the concrete
scenario, against a stats reading that disagrees only at key "all". -/
theorem claim_C2_all_sums_sites_witness :
    (∀ s ∈ testSites, ∀ t, testStats s t =
      (fun s' t' => if s' = "all" then 999 else testStats s' t') s t) ∧
    handleMetrics testSites 900 testStats "all" (some .backlog) =
      handleMetrics testSites 900
        (fun s' t' => if s' = "all" then 999 else testStats s' t')
        "all" (some .backlog) :=
  have hagree : ∀ s ∈ testSites, ∀ t, testStats s t =
      (fun s' t' => if s' = "all" then 999 else testStats s' t') s t := by
    intro s hs t
    have hne : s ≠ "all" := by
      rintro rfl
      simp [testSites] at hs
    simp [hne]
  ⟨hagree,
   (claim_C2_all_sums_sites testSites 900 testStats .backlog).2
     (fun s' t' => if s' = "all" then 999 else testStats s' t') hagree⟩

/-- Claim C7: a metrics request for a configured site with no recorded data
yields a successful all-zero result, while a request for an unrecognized
site yields the 404 error — the two cases are distinct. -/
theorem claim_C7_zero_data_vs_unknown :
    (∀ (sites : List Site) (expiry : Nat) (stats : Stats) (site : Site)
       (kind : Option MetricKind),
      site ∈ sites → site ≠ "all" → (∀ t, stats site t = 0) →
      ∃ l, handleMetrics sites expiry stats site kind = .ok l ∧
        l ≠ [] ∧ ∀ p ∈ l, p.2 = (⟨0, 0⟩ : MetricResults)) ∧
    (∀ (sites : List Site) (expiry : Nat) (stats : Stats) (site : Site)
       (kind : Option MetricKind),
      site ∉ sites → site ≠ "all" →
      handleMetrics sites expiry stats site kind = .error notFoundStatus) := by
  constructor
  · intro sites expiry stats site kind hmem hne h0
    have hk : knownSite sites site = true := knownSite_of_mem hmem
    have hzero : ∀ t, siteStat sites stats site t = 0 := fun t => by
      rw [siteStat_of_ne_all hne]
      exact h0 t
    cases kind with
    | some k =>
        refine ⟨[(kindName k, ⟨0, 0⟩)], ?_, by simp, ?_⟩
        · simp [handleMetrics, hk, computeMetric_zero expiry _ hzero k]
        · intro p hp
          simp at hp
          rw [hp]
    | none =>
        refine ⟨allKinds.map fun k => (kindName k, ⟨0, 0⟩), ?_,
          by simp [allKinds], ?_⟩
        · simp only [handleMetrics, hk, if_true]
          congr 1
          exact List.map_congr_left fun k _ => by
            rw [computeMetric_zero expiry _ hzero k]
        · intro p hp
          obtain ⟨k, -, rfl⟩ := List.mem_map.mp hp
          rfl
  · intro sites expiry stats site kind hmem hne
    have hk : knownSite sites site = false := by
      simp [knownSite, hne]
      exact hmem
    simp [handleMetrics, hk]

/-- Witness for claim C7: site1 with all streams zeroed yields zero-valued
results, and the unconfigured site of the test yields 404. -/
theorem claim_C7_zero_data_vs_unknown_witness :
    ("site1" ∈ testSites ∧ "site1" ≠ "all" ∧ (∀ t, zeroStats "site1" t = 0)) ∧
    (∃ l, handleMetrics testSites 900 zeroStats "site1"
        (some .throughput) = .ok l ∧
      l ≠ [] ∧ ∀ p ∈ l, p.2 = (⟨0, 0⟩ : MetricResults)) ∧
    handleMetrics testSites 900 testStats "wrong-site"
      (some .completions) = .error notFoundStatus :=
  ⟨⟨by decide, by decide, fun t => rfl⟩,
   claim_C7_zero_data_vs_unknown.1 testSites 900 zeroStats "site1"
     (some .throughput) (by decide) (by decide) (fun t => rfl),
   claim_C7_zero_data_vs_unknown.2 testSites 900 testStats "wrong-site"
     (some .completions) (by decide) (by decide)⟩

/-! Route matcher -/

/-- The HTTP methods the server distinguishes. -/
inductive Method where
  | GET
  | POST
  | DELETE
  | PUT
deriving DecidableEq, Repr

/-- Splitting a character list on a delimiter, keeping empty fields, with an
accumulator holding the current field reversed. -/
def splitFieldsAux (c : Char) : List Char → List Char → List (List Char)
  | [], acc => [acc.reverse]
  | x :: xs, acc =>
      if x = c then acc.reverse :: splitFieldsAux c xs []
      else splitFieldsAux c xs (x :: acc)

/-- Splitting a string on a delimiter character into its fields. -/
def splitFields (c : Char) (s : String) : List String :=
  (splitFieldsAux c s.data []).map String.mk

/-- The path of a request as its slash-separated segments (the empty segment
before the leading slash dropped). -/
def pathSegments (p : String) : List String := (splitFields '/' p).drop 1

/-- The metric kind named by a path segment, if any. -/
def metricKindOfSeg : String → Option MetricKind
  | "backlog" => some .backlog
  | "completions" => some .completions
  | "failures" => some .failures
  | "throughput" => some .throughput
  | _ => none

/-- Modelled from the spec: the closed set of accepted path shapes of the
route matcher, with their typed parameters. -/
inductive PathShape where
  | healthcheck
  | metricsSite (site : String)
  | metricsType (site : String) (k : MetricKind)
  | failed
  | failedObject (bucket : String) (keySegs : List String)
deriving DecidableEq, Repr

/-- Modelled from the spec: the route matcher's strict parse of a segment
list, missing from the sources.  Segment comparison is exact equality
against the closed vocabulary; any other shape is refused. -/
def parsePathShape : List String → Option PathShape
  | ["_", "healthcheck"] => some .healthcheck
  | ["_", "metrics", "crr", site] => some (.metricsSite site)
  | ["_", "metrics", "crr", site, t] =>
      (metricKindOfSeg t).map (.metricsType site)
  | ["_", "crr", "failed"] => some .failed
  | "_" :: "crr" :: "failed" :: bucket :: seg :: rest =>
      some (.failedObject bucket (seg :: rest))
  | _ => none

/-- The methods the route matcher allows on an accepted path shape:
`/_/crr/failed` accepts GET (listing) and POST (replay), everything else
only GET. -/
def allowedMethods : PathShape → List Method
  | .failed => [.GET, .POST]
  | _ => [.GET]

/-- A route matching outcome: a dispatched shape with its method, or one of
the two rejection statuses. -/
inductive RouteOutcome where
  | ok (shape : PathShape) (m : Method)
  | notFound
  | methodNotAllowed
deriving DecidableEq, Repr

/-- Modelled from the spec: the route matcher.  A path outside the fixed
grammar is 404; a grammar path with a disallowed method is 405. -/
def matchRoute (m : Method) (path : String) : RouteOutcome :=
  match parsePathShape (pathSegments path) with
  | none => .notFound
  | some shape =>
      if m ∈ allowedMethods shape then .ok shape m else .methodNotAllowed

/-- The status line the matcher's rejections produce; accepted routes carry
on to their handler. -/
def routeStatus : RouteOutcome → HttpStatus
  | .ok _ _ => ⟨200, "OK"⟩
  | .notFound => ⟨404, "Not Found"⟩
  | .methodNotAllowed => ⟨405, "Method Not Allowed"⟩

/-- The declarative route grammar: the closed set of accepted segment
shapes, stated independently of the parser. -/
inductive InGrammar : List String → Prop where
  | healthcheck : InGrammar ["_", "healthcheck"]
  | metricsSite (site : String) : InGrammar ["_", "metrics", "crr", site]
  | metricsType (site : String) (k : MetricKind) :
      InGrammar ["_", "metrics", "crr", site, kindName k]
  | failed : InGrammar ["_", "crr", "failed"]
  | failedObject (bucket seg : String) (rest : List String) :
      InGrammar ("_" :: "crr" :: "failed" :: bucket :: seg :: rest)

theorem metricKindOfSeg_kindName (k : MetricKind) :
    metricKindOfSeg (kindName k) = some k := by
  cases k <;> rfl

theorem metricKindOfSeg_eq_some {t : String} {k : MetricKind}
    (h : metricKindOfSeg t = some k) : t = kindName k := by
  unfold metricKindOfSeg at h
  split at h <;> (try simp at h) <;> (try subst h) <;> rfl

theorem parsePathShape_isSome_iff (segs : List String) :
    (parsePathShape segs).isSome = true ↔ InGrammar segs := by
  constructor
  · intro h
    unfold parsePathShape at h
    split at h
    · exact .healthcheck
    · exact .metricsSite _
    · rename_i site t
      cases hk : metricKindOfSeg t with
      | none => rw [hk] at h; simp at h
      | some k => rw [metricKindOfSeg_eq_some hk]; exact .metricsType site k
    · exact .failed
    · exact .failedObject _ _ _
    · simp at h
  · intro h
    cases h with
    | healthcheck => rfl
    | metricsSite site => rfl
    | metricsType site k =>
        simp [parsePathShape, metricKindOfSeg_kindName]
    | failed => rfl
    | failedObject bucket seg rest => rfl

theorem parsePathShape_eq_none_iff (segs : List String) :
    parsePathShape segs = none ↔ ¬ InGrammar segs := by
  rw [← parsePathShape_isSome_iff]
  cases parsePathShape segs <;> simp

/-- The wrong paths exercised by the routes test: general near-misses and
pluralized or truncated category, extension and type segments. -/
def wrongPaths : List String :=
  ["/",
   "/metrics/crr/all",
   "/_/metrics",
   "/_/metrics/backlog",
   "/_/m/crr/all",
   "/_/metric/crr/all",
   "/_/metric/crr/all/backlog",
   "/_/metricss/crr/all",
   "/_/metrics/c/all",
   "/_/metrics/c/all/backlog",
   "/_/metrics/crrr/all",
   "/_/metrics/crr/all/backlo",
   "/_/metrics/crr/all/backlogs",
   "/_/metrics/crr/all/completion",
   "/_/metrics/crr/all/completionss",
   "/_/metrics/crr/all/throughpu",
   "/_/metrics/crr/all/throughputs"]

/-- Claim C4: a request whose path is not an exact match of the fixed route
grammar receives 404 with status message exactly "Not Found" (in particular
every near-miss path of the test suite does), and a disallowed method on a
known path receives 405. -/
theorem claim_C4_route_strictness :
    (∀ (m : Method) (p : String),
      routeStatus (matchRoute m p) = ⟨404, "Not Found"⟩ ↔
        ¬ InGrammar (pathSegments p)) ∧
    (∀ (m : Method) (p : String) (shape : PathShape),
      parsePathShape (pathSegments p) = some shape →
      m ∉ allowedMethods shape →
      routeStatus (matchRoute m p) = ⟨405, "Method Not Allowed"⟩) ∧
    (∀ p ∈ wrongPaths,
      routeStatus (matchRoute .GET p) = ⟨404, "Not Found"⟩) ∧
    routeStatus (matchRoute .DELETE "/_/healthcheck") =
      ⟨405, "Method Not Allowed"⟩ := by
  refine ⟨?_, ?_, by decide, by decide⟩
  · intro m p
    unfold matchRoute
    cases hp : parsePathShape (pathSegments p) with
    | none =>
        simp [routeStatus, (parsePathShape_eq_none_iff _).mp hp]
    | some shape =>
        have hin : InGrammar (pathSegments p) :=
          (parsePathShape_isSome_iff _).mp (by rw [hp]; rfl)
        simp only [hin, not_true, iff_false]
        split <;> simp [routeStatus]
  · intro m p shape hp hm
    unfold matchRoute
    rw [hp]
    simp [hm, routeStatus]

/-- Witness for claim C4: the 405 contract applied to DELETE on the
healthcheck path. -/
theorem claim_C4_route_strictness_witness :
    (parsePathShape (pathSegments "/_/healthcheck") = some .healthcheck ∧
      Method.DELETE ∉ allowedMethods .healthcheck) ∧
    routeStatus (matchRoute .DELETE "/_/healthcheck") =
      ⟨405, "Method Not Allowed"⟩ :=
  ⟨⟨by decide, by decide⟩,
   claim_C4_route_strictness.2.1 .DELETE "/_/healthcheck" .healthcheck
     (by decide) (by decide)⟩

/-! Retry ledger -/

/-- A failed replication operation, identified by its four-field tuple;
this same tuple shape is what a replay request element carries. -/
structure FailedEntry where
  bucket : String
  key : String
  versionId : String
  storageClass : String
deriving DecidableEq, Repr

/-- Modelled from the spec: the ledger's physical key encoding
"<namespace>:<bucket>:<key>:<versionId>:<storageClass>". -/
def encodeLedgerKey (ns : String) (e : FailedEntry) : String :=
  ns ++ ":" ++ e.bucket ++ ":" ++ e.key ++ ":" ++ e.versionId ++ ":" ++
    e.storageClass

/-- Modelled from the spec: recognizing a scanned key of the ledger
namespace and decoding it into a FailedEntry; keys of unrelated data
stored alongside yield none. -/
def decodeLedgerKey (ns : String) (k : String) : Option FailedEntry :=
  let nsParts := splitFields ':' ns
  let parts := splitFields ':' k
  if parts.take nsParts.length = nsParts ∧
      parts.length = nsParts.length + 4 then
    match parts.drop nsParts.length with
    | [b, key, v, sc] => some ⟨b, key, v, sc⟩
    | _ => none
  else none

/-- The shared store's keyspace in its scan order. -/
abbrev Keyspace := List String

/-- One raw listing page: the decoded entries, whether further pages
remain, and the continuation cursor if so. -/
structure ListResult where
  entries : List FailedEntry
  isTruncated : Bool
  nextMarker : Option Nat
deriving DecidableEq, Repr

/-- Decoding one scanned key, kept only when it is a ledger key passing
the listing filter. -/
def decodeFiltered (ns : String) (flt : FailedEntry → Bool) (k : String) :
    Option FailedEntry :=
  match decodeLedgerKey ns k with
  | some e => if flt e then some e else none
  | none => none

/-- Modelled from the spec: one bounded page of the full-keyspace scan
starting at the cursor: at most `batch` keys are inspected, ledger keys
passing the filter are decoded onto the page, unrelated keys are skipped,
and the response says whether further pages remain. -/
def listOnePage (ns : String) (flt : FailedEntry → Bool) (ks : Keyspace)
    (batch marker : Nat) : ListResult :=
  let entries := ((ks.drop marker).take batch).filterMap (decodeFiltered ns flt)
  if marker + batch < ks.length then
    ⟨entries, true, some (marker + batch)⟩
  else
    ⟨entries, false, none⟩

/-- Chaining listing calls from a cursor until a response is no longer
truncated, collecting every response; fuel bounds the recursion. -/
def listResponses (ns : String) (flt : FailedEntry → Bool) (ks : Keyspace)
    (batch : Nat) : Nat → Nat → List ListResult
  | _, 0 => []
  | marker, fuel + 1 =>
      let r := listOnePage ns flt ks batch marker
      match r.nextMarker with
      | none => [r]
      | some m => r :: listResponses ns flt ks batch m fuel

/-- The full chain of listing calls from the start of the scan, with fuel
sufficient for any positive batch size. -/
def listChain (ns : String) (flt : FailedEntry → Bool) (ks : Keyspace)
    (batch : Nat) : List ListResult :=
  listResponses ns flt ks batch 0 (ks.length + 1)

/-- Externally-sourced object metadata, keyed by bucket, key and version:
the size, last-modified date, and the version identifier computed from the
object's metadata. -/
structure ObjectMD where
  size : Nat
  lastModified : String
  versionId : String
deriving DecidableEq, Repr

/-- The external object-metadata collaborator, as a lookup by bucket, key
and versionId. -/
abbrev MDLookup := String → String → String → ObjectMD

/-- One entry of a listing response's `Versions` array. -/
structure VersionEntry where
  bucket : String
  key : String
  versionId : String
  storageClass : String
  size : Nat
  lastModified : String
deriving DecidableEq, Repr

/-- Modelled from the spec: building one `Versions` entry from a decoded
ledger entry, enriched from the metadata collaborator; the reported
VersionId is the metadata-derived one. -/
def toVersionEntry (md : MDLookup) (e : FailedEntry) : VersionEntry :=
  let m := md e.bucket e.key e.versionId
  ⟨e.bucket, e.key, m.versionId, e.storageClass, m.size, m.lastModified⟩

/-- A listing response body: `{IsTruncated, Versions, NextMarker?}`. -/
structure ListResponse where
  isTruncated : Bool
  versions : List VersionEntry
  nextMarker : Option Nat
deriving DecidableEq, Repr

/-- The listing response presented for one raw page. -/
def toListResponse (md : MDLookup) (r : ListResult) : ListResponse :=
  ⟨r.isTruncated, r.entries.map (toVersionEntry md), r.nextMarker⟩

/-- Modelled from the spec: a numeric digit string to its value. -/
def decDigitsToNat (l : List Char) : Nat :=
  l.foldl (fun acc c => acc * 10 + (c.toNat - Char.toNat '0')) 0

/-- Modelled from the spec: parsing the optional `marker` query parameter.
An absent marker means start-of-scan; a present-but-empty or non-numeric
marker is invalid. -/
def parseMarkerParam : Option String → Option Nat
  | none => some 0
  | some s =>
      if s.data ≠ [] ∧ s.data.all Char.isDigit then
        some (decDigitsToNat s.data)
      else none

/-- Modelled from the spec: the GET /_/crr/failed handler.  Marker
validation happens before the store is consulted; a valid request serves
one bounded page of the scan. -/
def handleFailedList (ns : String) (flt : FailedEntry → Bool) (batch : Nat)
    (md : MDLookup) (ks : Keyspace) (markerParam : Option String) :
    Except HttpStatus ListResponse :=
  match parseMarkerParam markerParam with
  | none => .error ⟨400, "Bad Request"⟩
  | some marker =>
      .ok (toListResponse md (listOnePage ns flt ks batch marker))

/-- The listing handler as a state transition on the shared store: it
reads the keyspace and leaves it unchanged. -/
def serverListStep (ns : String) (flt : FailedEntry → Bool) (batch : Nat)
    (md : MDLookup) (ks : Keyspace) (markerParam : Option String) :
    Except HttpStatus ListResponse × Keyspace :=
  (handleFailedList ns flt batch md ks markerParam, ks)

/-- The per-object listing filter of the filtered route: bucket, key and
versionId must all match the decoded ledger entry. -/
def objectFilter (bucket key versionId : String) (e : FailedEntry) : Bool :=
  e.bucket = bucket && e.key = key && e.versionId = versionId

/-- The object key named by the route's trailing segments, which may span
several slash-separated segments. -/
def joinSegs : List String → String
  | [] => ""
  | [s] => s
  | s :: rest => s ++ "/" ++ joinSegs rest

/-! Scan-chain lemmas -/

theorem listOnePage_entries (ns : String) (flt : FailedEntry → Bool)
    (ks : Keyspace) (batch marker : Nat) :
    (listOnePage ns flt ks batch marker).entries
      = ((ks.drop marker).take batch).filterMap (decodeFiltered ns flt) := by
  unfold listOnePage
  split <;> rfl

theorem listOnePage_truncated_iff (ns : String) (flt : FailedEntry → Bool)
    (ks : Keyspace) (batch marker : Nat) :
    (listOnePage ns flt ks batch marker).isTruncated = false ↔
      (listOnePage ns flt ks batch marker).nextMarker = none := by
  unfold listOnePage
  split <;> simp

theorem listOnePage_entries_length_le (ns : String) (flt : FailedEntry → Bool)
    (ks : Keyspace) (batch marker : Nat) :
    (listOnePage ns flt ks batch marker).entries.length ≤ batch := by
  rw [listOnePage_entries]
  calc (((ks.drop marker).take batch).filterMap (decodeFiltered ns flt)).length
      ≤ ((ks.drop marker).take batch).length :=
        List.length_filterMap_le _ _
    _ ≤ batch := by
        rw [List.length_take]
        exact Nat.min_le_left _ _

theorem listResponses_succ (ns : String) (flt : FailedEntry → Bool)
    (ks : Keyspace) (batch marker fuel : Nat) :
    listResponses ns flt ks batch marker (fuel + 1)
      = if marker + batch < ks.length then
          listOnePage ns flt ks batch marker ::
            listResponses ns flt ks batch (marker + batch) fuel
        else [listOnePage ns flt ks batch marker] := by
  conv_lhs => rw [listResponses]
  unfold listOnePage
  by_cases h : marker + batch < ks.length <;> simp [h]

theorem listResponses_entries_flatten (ns : String) (flt : FailedEntry → Bool)
    (ks : Keyspace) (batch : Nat) :
    ∀ (fuel marker : Nat), ks.length ≤ marker + batch * fuel →
      ((listResponses ns flt ks batch marker fuel).map (·.entries)).flatten
        = (ks.drop marker).filterMap (decodeFiltered ns flt) := by
  intro fuel
  induction fuel with
  | zero =>
      intro marker h
      have hdrop : ks.drop marker = [] :=
        List.drop_eq_nil_of_le (by simpa using h)
      simp [listResponses, hdrop]
  | succ n ih =>
      intro marker h
      rw [listResponses_succ]
      by_cases hlt : marker + batch < ks.length
      · rw [if_pos hlt]
        simp only [List.map_cons, List.flatten_cons]
        rw [listOnePage_entries, ih (marker + batch)
          (by rw [Nat.mul_succ] at h; omega)]
        have hdd : List.drop (marker + batch) ks
            = List.drop batch (List.drop marker ks) := by
          rw [List.drop_drop]
        rw [hdd, ← List.filterMap_append, List.take_append_drop]
      · rw [if_neg hlt]
        simp only [List.map_cons, List.map_nil, List.flatten_cons,
          List.flatten_nil, List.append_nil]
        rw [listOnePage_entries]
        have htake : List.take batch (List.drop marker ks)
            = List.drop marker ks := by
          apply List.take_of_length_le
          rw [List.length_drop]
          omega
        rw [htake]

theorem mem_listResponses (ns : String) (flt : FailedEntry → Bool)
    (ks : Keyspace) (batch : Nat) :
    ∀ (fuel marker : Nat) (r : ListResult),
      r ∈ listResponses ns flt ks batch marker fuel →
      ∃ m, r = listOnePage ns flt ks batch m := by
  intro fuel
  induction fuel with
  | zero =>
      intro marker r h
      simp [listResponses] at h
  | succ n ih =>
      intro marker r h
      rw [listResponses_succ] at h
      by_cases hlt : marker + batch < ks.length
      · rw [if_pos hlt] at h
        rcases List.mem_cons.mp h with rfl | h2
        · exact ⟨marker, rfl⟩
        · exact ih _ r h2
      · rw [if_neg hlt] at h
        simp at h
        exact ⟨marker, h⟩

theorem listResponses_decomp (ns : String) (flt : FailedEntry → Bool)
    (ks : Keyspace) (batch : Nat) :
    ∀ (fuel marker : Nat), ks.length ≤ marker + batch * fuel → 1 ≤ fuel →
      ∃ rs rlast, listResponses ns flt ks batch marker fuel = rs ++ [rlast] ∧
        rlast.isTruncated = false ∧ rlast.nextMarker = none ∧
        ∀ r ∈ rs, r.isTruncated = true ∧ r.nextMarker ≠ none := by
  intro fuel
  induction fuel with
  | zero =>
      intro marker _ h1
      omega
  | succ n ih =>
      intro marker h _
      by_cases hlt : marker + batch < ks.length
      · have hn : 1 ≤ n := by
          rcases Nat.eq_zero_or_pos n with rfl | hp
          · rw [Nat.mul_succ, Nat.mul_zero] at h
            omega
          · exact hp
        obtain ⟨rs, rlast, heq, h1, h2, h3⟩ :=
          ih (marker + batch) (by rw [Nat.mul_succ] at h; omega) hn
        refine ⟨listOnePage ns flt ks batch marker :: rs, rlast, ?_, h1, h2, ?_⟩
        · rw [listResponses_succ, if_pos hlt, heq]
          rfl
        · intro r hr
          rcases List.mem_cons.mp hr with rfl | hr2
          · constructor
            · simp [listOnePage, hlt]
            · simp [listOnePage, hlt]
          · exact h3 r hr2
      · refine ⟨[], listOnePage ns flt ks batch marker, ?_, ?_, ?_, by simp⟩
        · rw [listResponses_succ, if_neg hlt]
          rfl
        · simp [listOnePage, hlt]
        · simp [listOnePage, hlt]

theorem decodeFiltered_true (ns : String) :
    decodeFiltered ns (fun _ => true) = decodeLedgerKey ns := by
  funext k
  unfold decodeFiltered
  cases decodeLedgerKey ns k <;> simp

theorem chain_fuel_le (ks : Keyspace) (batch : Nat) (hb : 0 < batch) :
    ks.length ≤ 0 + batch * (ks.length + 1) := by
  have h1 : 1 * (ks.length + 1) ≤ batch * (ks.length + 1) :=
    Nat.mul_le_mul_right _ hb
  rw [Nat.one_mul] at h1
  omega

/-- Claim C3: chaining listing calls via NextMarker over a keyspace of
ledger entries interleaved with unrelated keys returns exactly the decoded
ledger entries, without duplicates when the stored entries are distinct;
every call's page is bounded by the batch size; the final call reports
IsTruncated false with no NextMarker, and every earlier call reports
IsTruncated true with a NextMarker. -/
theorem claim_C3_listing_pagination (ns : String) (ks : Keyspace)
    (batch : Nat) (hb : 0 < batch)
    (hnd : (ks.filterMap (decodeLedgerKey ns)).Nodup) :
    ((listChain ns (fun _ => true) ks batch).map (·.entries)).flatten
        = ks.filterMap (decodeLedgerKey ns) ∧
    (((listChain ns (fun _ => true) ks batch).map (·.entries)).flatten).Nodup ∧
    (∀ r ∈ listChain ns (fun _ => true) ks batch,
      r.entries.length ≤ batch ∧
      (r.isTruncated = false ↔ r.nextMarker = none)) ∧
    (∃ rs rlast, listChain ns (fun _ => true) ks batch = rs ++ [rlast] ∧
      rlast.isTruncated = false ∧ rlast.nextMarker = none ∧
      ∀ r ∈ rs, r.isTruncated = true ∧ r.nextMarker ≠ none) := by
  have hjoin := listResponses_entries_flatten ns (fun _ => true) ks batch
    (ks.length + 1) 0 (chain_fuel_le ks batch hb)
  rw [List.drop_zero, decodeFiltered_true] at hjoin
  refine ⟨hjoin, by rw [listChain, hjoin]; exact hnd, ?_, ?_⟩
  · intro r hr
    obtain ⟨m, rfl⟩ := mem_listResponses ns _ ks batch _ 0 r hr
    exact ⟨listOnePage_entries_length_le ns _ ks batch m,
      listOnePage_truncated_iff ns _ ks batch m⟩
  · exact listResponses_decomp ns _ ks batch (ks.length + 1) 0
      (chain_fuel_le ks batch hb) (by omega)

/-- The ledger namespace of the test configuration. -/
def testNS : String := "test:bb:crr:failed"

/-- The version identifier calculated from the mock object metadata in the
retry tests. -/
def testVersionId : String :=
  "39383530303038363133343437313939393939395247303031202030"

/-- The mock object-metadata collaborator of the tests: every lookup
reports size 1, a fixed last-modified date, and the metadata-calculated
version identifier. -/
def testMD : MDLookup := fun _ _ _ =>
  ⟨1, "2018-03-30T22:22:34.384Z", testVersionId⟩

/-- A small keyspace with ledger entries interleaved with unrelated keys,
in the shape of the at-scale scan scenario. -/
def scanKeysC3 : Keyspace :=
  ["a",
   "test:bb:crr:failed:b1:k1:v1:s1",
   "b",
   "test:bb:crr:failed:b2:k2:v2:s2",
   "test:bb:crr:failed:b3:k3:v3:s3",
   "c"]

/-- Witness for claim C3: the chained scan over the interleaved keyspace,
two keys per page, returns exactly its three distinct ledger entries. -/
theorem claim_C3_listing_pagination_witness :
    (0 < 2 ∧ (scanKeysC3.filterMap (decodeLedgerKey testNS)).Nodup) ∧
    ((listChain testNS (fun _ => true) scanKeysC3 2).map (·.entries)).flatten
      = scanKeysC3.filterMap (decodeLedgerKey testNS) :=
  ⟨⟨by decide, by decide⟩,
   (claim_C3_listing_pagination testNS scanKeysC3 2 (by decide) (by decide)).1⟩

/-- Claim C8: a listing request with a malformed marker (non-numeric, or
present but empty) fails with status 400, is decided without consulting
the store, and leaves the stored state unchanged. -/
theorem claim_C8_invalid_marker :
    (∀ (ns : String) (flt : FailedEntry → Bool) (batch : Nat)
       (md : MDLookup) (ks : Keyspace) (s : String),
      parseMarkerParam (some s) = none →
      handleFailedList ns flt batch md ks (some s)
          = .error ⟨400, "Bad Request"⟩ ∧
      (∀ (md' : MDLookup) (ks' : Keyspace),
        handleFailedList ns flt batch md' ks' (some s)
          = handleFailedList ns flt batch md ks (some s)) ∧
      (serverListStep ns flt batch md ks (some s)).2 = ks) ∧
    parseMarkerParam (some "foo") = none ∧
    parseMarkerParam (some "") = none := by
  refine ⟨?_, by decide, by decide⟩
  intro ns flt batch md ks s h
  refine ⟨?_, ?_, rfl⟩
  · simp [handleFailedList, h]
  · intro md' ks'
    simp [handleFailedList, h]

/-- Witness for claim C8: the non-numeric marker "foo" against a concrete
store. -/
theorem claim_C8_invalid_marker_witness :
    parseMarkerParam (some "foo") = none ∧
    handleFailedList testNS (fun _ => true) 1000 testMD ["x"] (some "foo")
      = .error ⟨400, "Bad Request"⟩ :=
  ⟨by decide,
   (claim_C8_invalid_marker.1 testNS (fun _ => true) 1000 testMD ["x"] "foo"
     (by decide)).1⟩

/-! Filtered listing -/

theorem filterMap_decodeFiltered (ns : String) (flt : FailedEntry → Bool) :
    ∀ l : List String,
      l.filterMap (decodeFiltered ns flt)
        = (l.filterMap (decodeLedgerKey ns)).filter flt := by
  intro l
  induction l with
  | nil => rfl
  | cons k t ih =>
      cases hd : decodeLedgerKey ns k with
      | none =>
          simp [List.filterMap_cons, decodeFiltered, hd, ih]
      | some e =>
          by_cases hf : flt e <;>
            simp [List.filterMap_cons, decodeFiltered, hd, hf, ih,
              List.filter_cons]

/-- The keyspace of the filtered-listing test: two entries of the requested
object at different storage classes, and one entry of another object. -/
def objectKeysC9 : Keyspace :=
  ["test:bb:crr:failed:test-bucket:test-key/a:test-versionId:test-site",
   "test:bb:crr:failed:test-bucket:test-key/a:test-versionId:test-site-2",
   "test:bb:crr:failed:test-bucket-1:test-key-1/a:test-versionId-1:test-site"]

/-- Claim C9: the filtered listing returns exactly the ledger entries
matching the requested bucket, key and versionId (one entry per matching
storage class) and excludes every other entry, in the listing response
shape; the object key may span multiple path segments. -/
theorem claim_C9_filtered_listing :
    (∀ (ns : String) (ks : Keyspace) (batch : Nat) (bucket key vid : String),
      0 < batch →
      ((listChain ns (objectFilter bucket key vid) ks batch).map
          (·.entries)).flatten
        = (ks.filterMap (decodeLedgerKey ns)).filter
            (objectFilter bucket key vid) ∧
      (∀ e ∈ ((listChain ns (objectFilter bucket key vid) ks batch).map
          (·.entries)).flatten,
        e.bucket = bucket ∧ e.key = key ∧ e.versionId = vid)) ∧
    parsePathShape (pathSegments "/_/crr/failed/test-bucket/test-key/a")
      = some (.failedObject "test-bucket" ["test-key", "a"]) ∧
    joinSegs ["test-key", "a"] = "test-key/a" ∧
    toListResponse testMD
      (listOnePage testNS
        (objectFilter "test-bucket" "test-key/a" "test-versionId")
        objectKeysC9 1000 0)
      = ⟨false,
         [⟨"test-bucket", "test-key/a", testVersionId, "test-site", 1,
           "2018-03-30T22:22:34.384Z"⟩,
          ⟨"test-bucket", "test-key/a", testVersionId, "test-site-2", 1,
           "2018-03-30T22:22:34.384Z"⟩],
         none⟩ := by
  refine ⟨?_, by decide, by decide, by decide⟩
  intro ns ks batch bucket key vid hb
  have hjoin := listResponses_entries_flatten ns
    (objectFilter bucket key vid) ks batch (ks.length + 1) 0
    (chain_fuel_le ks batch hb)
  rw [List.drop_zero, filterMap_decodeFiltered] at hjoin
  refine ⟨hjoin, ?_⟩
  intro e he
  rw [listChain, hjoin] at he
  have hf := (List.mem_filter.mp he).2
  simp [objectFilter] at hf
  exact ⟨hf.1.1, hf.1.2, hf.2⟩

/-- Witness for claim C9: the filter-correctness half applied to the
concrete keyspace of the filtered-listing test. -/
theorem claim_C9_filtered_listing_witness :
    (0 < 1000 : Prop) ∧
    ((listChain testNS
        (objectFilter "test-bucket" "test-key/a" "test-versionId")
        objectKeysC9 1000).map (·.entries)).flatten
      = (objectKeysC9.filterMap (decodeLedgerKey testNS)).filter
          (objectFilter "test-bucket" "test-key/a" "test-versionId") :=
  ⟨by decide,
   (claim_C9_filtered_listing.1 testNS objectKeysC9 1000 "test-bucket"
     "test-key/a" "test-versionId" (by decide)).1⟩

/-! Retry replay service -/

/-- A JSON value, as received in a replay request body. -/
inductive Json where
  | null
  | bool (b : Bool)
  | num (n : Int)
  | str (s : String)
  | arr (elems : List Json)
  | obj (fields : List (String × Json))

/-- The string value of a named field of a JSON object, if present. -/
def getStringField (fields : List (String × Json)) (name : String) :
    Option String :=
  match fields.lookup name with
  | some (.str s) => some s
  | _ => none

/-- Modelled from the spec: one replay request element must be an object
with the four required string fields. -/
def parseReplayElem : Json → Option FailedEntry
  | .obj fields =>
      match getStringField fields "Bucket", getStringField fields "Key",
        getStringField fields "VersionId",
        getStringField fields "StorageClass" with
      | some b, some k, some v, some sc => some ⟨b, k, v, sc⟩
      | _, _, _, _ => none
  | _ => none

/-- Modelled from the spec: a replay request body must be a non-empty JSON
array whose elements all parse; any deviation invalidates the whole body. -/
def parseReplayBody : Json → Option (List FailedEntry)
  | .arr elems =>
      if elems.isEmpty then none
      else elems.mapM parseReplayElem
  | _ => none

/-- The malformed-replay error: HTTP status and body flag
`MalformedPOSTRequest`. -/
structure ApiError where
  status : Nat
  malformedPOSTRequest : Bool
deriving DecidableEq, Repr

/-- A replay response element: the input tuple enriched with metadata and
marked pending. -/
structure ReplayCandidate where
  bucket : String
  key : String
  versionId : String
  storageClass : String
  replicationStatus : String
  lastModified : String
  size : Nat
deriving DecidableEq, Repr

/-- Modelled from the spec: the ledger existence check — the tuple's
encoded key is present in the shared store. -/
def ledgerHas (ns : String) (ks : Keyspace) (e : FailedEntry) : Bool :=
  ks.contains (encodeLedgerKey ns e)

/-- Modelled from the spec: enriching a matched tuple with the external
metadata's Size and LastModified and marking it PENDING. -/
def enrichCandidate (md : MDLookup) (e : FailedEntry) : ReplayCandidate :=
  let m := md e.bucket e.key e.versionId
  ⟨e.bucket, e.key, e.versionId, e.storageClass, "PENDING",
    m.lastModified, m.size⟩

/-- Modelled from the spec: the POST /_/crr/failed handler.  A malformed
body is rejected wholesale; a well-formed one is filtered by ledger
existence and the matches enriched, preserving input order. -/
def handleReplay (ns : String) (md : MDLookup) (ks : Keyspace)
    (body : Json) : Except ApiError (List ReplayCandidate) :=
  match parseReplayBody body with
  | none => .error ⟨400, true⟩
  | some elems =>
      .ok ((elems.filter (ledgerHas ns ks)).map (enrichCandidate md))

/-- Claim C5: for a well-formed replay body, the response is exactly the
sub-list of input tuples with a matching ledger entry, in input order,
each enriched with the collaborator's Size and LastModified and marked
PENDING; a request with no matching tuple yields the empty array, not an
error. -/
theorem claim_C5_replay_filtering :
    ∀ (ns : String) (md : MDLookup) (ks : Keyspace) (body : Json)
      (elems : List FailedEntry),
      parseReplayBody body = some elems →
      ∃ out, handleReplay ns md ks body = .ok out ∧
        out.map (fun c =>
            FailedEntry.mk c.bucket c.key c.versionId c.storageClass)
          = elems.filter (ledgerHas ns ks) ∧
        (∀ c ∈ out, c.replicationStatus = "PENDING" ∧
          c.size = (md c.bucket c.key c.versionId).size ∧
          c.lastModified = (md c.bucket c.key c.versionId).lastModified) ∧
        ((∀ e ∈ elems, ledgerHas ns ks e = false) → out = []) := by
  intro ns md ks body elems h
  refine ⟨(elems.filter (ledgerHas ns ks)).map (enrichCandidate md),
    by simp [handleReplay, h], ?_, ?_, ?_⟩
  · rw [List.map_map]
    have hcomp : (fun c : ReplayCandidate =>
        FailedEntry.mk c.bucket c.key c.versionId c.storageClass)
          ∘ enrichCandidate md = id := by
      funext e
      cases e
      rfl
    rw [hcomp, List.map_id]
  · intro c hc
    obtain ⟨e, -, rfl⟩ := List.mem_map.mp hc
    exact ⟨rfl, rfl, rfl⟩
  · intro hnone
    have hfil : elems.filter (ledgerHas ns ks) = [] := by
      rw [List.filter_eq_nil_iff]
      intro e he
      simp [hnone e he]
    rw [hfil]
    rfl

/-- The ledger keys of the multiple-matches replay test: the same object
failed towards three storage classes. -/
def replayKeysC5 : Keyspace :=
  ["test:bb:crr:failed:test-bucket:test-key:" ++ testVersionId ++
     ":test-site-1",
   "test:bb:crr:failed:test-bucket:test-key:" ++ testVersionId ++
     ":test-site-2",
   "test:bb:crr:failed:test-bucket:test-key:" ++ testVersionId ++
     ":test-site-3"]

/-- One replay request element as a JSON object. -/
def replayObj (sc : String) : Json :=
  .obj [("Bucket", .str "test-bucket"), ("Key", .str "test-key"),
    ("VersionId", .str testVersionId), ("StorageClass", .str sc)]

/-- The request body of the multiple-matches replay test: four tuples, one
of which names an unknown storage class. -/
def replayBodyC5 : Json :=
  .arr [replayObj "test-site-1", replayObj "test-site-unknown",
    replayObj "test-site-2", replayObj "test-site-3"]

/-- The parsed elements of the multiple-matches replay request. -/
def replayElemsC5 : List FailedEntry :=
  [⟨"test-bucket", "test-key", testVersionId, "test-site-1"⟩,
   ⟨"test-bucket", "test-key", testVersionId, "test-site-unknown"⟩,
   ⟨"test-bucket", "test-key", testVersionId, "test-site-2"⟩,
   ⟨"test-bucket", "test-key", testVersionId, "test-site-3"⟩]

/-- Witness for claim C5: the multiple-matches replay request against the
three stored keys returns the three matches, in input order, the unknown
storage class silently omitted. -/
theorem claim_C5_replay_filtering_witness :
    parseReplayBody replayBodyC5 = some replayElemsC5 ∧
    ∃ out, handleReplay testNS testMD replayKeysC5 replayBodyC5 = .ok out ∧
      out.map (fun c =>
          FailedEntry.mk c.bucket c.key c.versionId c.storageClass)
        = replayElemsC5.filter (ledgerHas testNS replayKeysC5) :=
  ⟨by decide, by
    obtain ⟨out, h1, h2, -, -⟩ := claim_C5_replay_filtering testNS testMD
      replayKeysC5 replayBodyC5 replayElemsC5 (by decide)
    exact ⟨out, h1, h2⟩⟩

/-- Claim C6: every malformed replay body — non-array top level, empty
array, non-object element, or element missing a required field — is
rejected wholesale with status 400 and MalformedPOSTRequest true, with no
element processed against the store or the metadata collaborator. -/
theorem claim_C6_replay_malformed :
    (∀ (ns : String) (md : MDLookup) (ks : Keyspace) (body : Json),
      parseReplayBody body = none →
      handleReplay ns md ks body = .error ⟨400, true⟩ ∧
      ∀ (ns' : String) (md' : MDLookup) (ks' : Keyspace),
        handleReplay ns' md' ks' body = handleReplay ns md ks body) ∧
    parseReplayBody (.str "a") = none ∧
    parseReplayBody (.obj []) = none ∧
    parseReplayBody (.arr []) = none ∧
    parseReplayBody (.arr [.str "a"]) = none ∧
    parseReplayBody (.arr [.obj [("Key", .str "b"), ("VersionId", .str "c"),
      ("StorageClass", .str "d")]]) = none ∧
    parseReplayBody (.arr [.obj [("Bucket", .str "a"),
      ("VersionId", .str "c"), ("StorageClass", .str "d")]]) = none ∧
    parseReplayBody (.arr [.obj [("Bucket", .str "a"), ("Key", .str "b"),
      ("StorageClass", .str "d")]]) = none ∧
    parseReplayBody (.arr [.obj [("Bucket", .str "a"), ("Key", .str "b"),
      ("VersionId", .str "c")]]) = none := by
  refine ⟨?_, by decide, by decide, by decide, by decide, by decide,
    by decide, by decide, by decide⟩
  intro ns md ks body h
  exact ⟨by simp [handleReplay, h],
    fun ns' md' ks' => by simp [handleReplay, h]⟩

/-- Witness for claim C6: the empty-array body is rejected with 400 and
the malformed flag. -/
theorem claim_C6_replay_malformed_witness :
    parseReplayBody (.arr []) = none ∧
    handleReplay testNS testMD [] (.arr []) = .error ⟨400, true⟩ :=
  ⟨by decide,
   (claim_C6_replay_malformed.1 testNS testMD [] (.arr []) (by decide)).1⟩

/-! Reported version identifiers -/

/-- A metadata collaborator whose calculated version identifier differs
from the stored one. -/
def cxMD : MDLookup := fun _ _ _ => ⟨1, "lm", "w"⟩

/-- A single-element replay request for the tuple (b, k, v, sc). -/
def cxBody : Json :=
  .arr [.obj [("Bucket", .str "b"), ("Key", .str "k"),
    ("VersionId", .str "v"), ("StorageClass", .str "sc")]]

/-- Counterexample to claim C10: a replay response element carries the
request's VersionId "v" even though the metadata collaborator reports the
version identifier "w" for every lookup — replay does not report the
metadata-derived value. -/
theorem claim_C10_versionid_counterexample :
    handleReplay "ns" cxMD [encodeLedgerKey "ns" ⟨"b", "k", "v", "sc"⟩]
        cxBody
      = .ok [⟨"b", "k", "v", "sc", "PENDING", "lm", 1⟩] ∧
    (⟨"b", "k", "v", "sc", "PENDING", "lm", 1⟩ :
        ReplayCandidate).versionId
      ≠ (cxMD "b" "k" "v").versionId := by
  exact ⟨by decide, by decide⟩

/-- Claim C10 as amended: every entry of a listing response reports the
metadata-derived version identifier, which can differ from the raw
versionId segment decoded from the stored key; a replay response element
instead echoes the request tuple's VersionId. -/
theorem claim_C10_versionid_amended :
    (∀ (md : MDLookup) (r : ListResult) (v : VersionEntry),
      v ∈ (toListResponse md r).versions →
      ∃ e ∈ r.entries, v = toVersionEntry md e ∧
        v.versionId = (md e.bucket e.key e.versionId).versionId) ∧
    ((toVersionEntry testMD
        ⟨"test-bucket-1", "test-key", "test-versionId",
          "test-site"⟩).versionId = testVersionId ∧
      testVersionId ≠ "test-versionId") ∧
    (∀ (ns : String) (md : MDLookup) (ks : Keyspace) (body : Json)
       (elems : List FailedEntry) (out : List ReplayCandidate),
      parseReplayBody body = some elems →
      handleReplay ns md ks body = .ok out →
      ∀ c ∈ out, ∃ e ∈ elems, c = enrichCandidate md e ∧
        c.versionId = e.versionId) := by
  refine ⟨?_, ⟨by decide, by decide⟩, ?_⟩
  · intro md r v hv
    obtain ⟨e, he, rfl⟩ := List.mem_map.mp hv
    exact ⟨e, he, rfl, rfl⟩
  · intro ns md ks body elems out hparse hrun c hc
    rw [handleReplay, hparse] at hrun
    have hout : out = (elems.filter (ledgerHas ns ks)).map
        (enrichCandidate md) := by
      cases hrun
      rfl
    rw [hout] at hc
    obtain ⟨e, he, rfl⟩ := List.mem_map.mp hc
    exact ⟨e, List.mem_of_mem_filter he, rfl, rfl⟩

/-- Witness for claim C10 as amended: the one-key listing scenario, whose
response entry reports the metadata-calculated version identifier rather
than the raw segment of the stored key. -/
theorem claim_C10_versionid_amended_witness :
    (toVersionEntry testMD
        ⟨"test-bucket-1", "test-key", "test-versionId", "test-site"⟩)
      ∈ (toListResponse testMD
          ⟨[⟨"test-bucket-1", "test-key", "test-versionId", "test-site"⟩],
            false, none⟩).versions ∧
    ∃ e ∈ ([⟨"test-bucket-1", "test-key", "test-versionId", "test-site"⟩] :
        List FailedEntry),
      toVersionEntry testMD
          ⟨"test-bucket-1", "test-key", "test-versionId", "test-site"⟩
        = toVersionEntry testMD e ∧
      (toVersionEntry testMD
          ⟨"test-bucket-1", "test-key", "test-versionId",
            "test-site"⟩).versionId
        = (testMD e.bucket e.key e.versionId).versionId :=
  ⟨by decide,
   claim_C10_versionid_amended.1 testMD
     ⟨[⟨"test-bucket-1", "test-key", "test-versionId", "test-site"⟩],
       false, none⟩
     (toVersionEntry testMD
       ⟨"test-bucket-1", "test-key", "test-versionId", "test-site"⟩)
     (by decide)⟩

end Backbeat
